import Mathlib

set_option linter.unusedVariables false

/-!
Shallow embedding of `src/main.py` (findme-api): the recovery-code helpers,
access control, and the upload / process / status / download / delete
operations, stated over an explicit relational-store + blob-store state.

External collaborators are parameters of the embedded operations, following
the collaborator interfaces the code uses:
* `H : PyStr → PyStr` stands for `hashlib.sha256(...).hexdigest()` (a 64
  hex-character digest of the input bytes);
* `parse : Bytes → Option (List String)` stands for `zipfile.ZipFile(...)` +
  `namelist()` (`none` = the constructor raised on a malformed archive);
* `fetch : String → Nat × Bytes` stands for `requests.get` (status code and
  body);
* `remove : Storage → List String → Option Storage` stands for
  `storage.remove` (`none` = the call raised; the caller swallows this).

Python strings in the code paths that transform text (recovery codes, salts,
hashes, hints, error details) are modelled as `List Char` so that every
operation (`strip`, `upper`, `replace`) is a plain list function.  Identifiers,
statuses and storage paths are Lean `String`s.  The metadata store itself is
modelled as error-free lists of rows (a `res.error` from supabase only leads
to an early HTTP 500 in the source and carries no logic of its own).
-/

deriving instance DecidableEq for Except

namespace FindMe

/-- Python strings, in the character-transforming code paths, as char lists. -/
abbrev PyStr := List Char

/-- Char list of a Lean string literal. -/
def pyS (s : String) : PyStr := s.data

/-- Python `str.strip()`: drop leading and trailing whitespace. -/
def pyStrip (s : PyStr) : PyStr :=
  ((s.dropWhile Char.isWhitespace).reverse.dropWhile Char.isWhitespace).reverse

/-- Python `str.strip()` on a Lean `String`. -/
def pyStripS (s : String) : String := String.mk (pyStrip s.data)

/-- Python `str.lower()` on a Lean `String`. -/
def pyLower (s : String) : String := String.mk (s.data.map Char.toLower)

/-- Python `str.endswith(suffix)` on a Lean `String`. -/
def pyEndsWith (s suffix : String) : Bool := suffix.data.isSuffixOf s.data

/-- Python `str.lstrip("/")` on a Lean `String`. -/
def pyLstripSlash (s : String) : String := String.mk (s.data.dropWhile (· = '/'))

/-- Truthiness of an optional Python string: `None` and `""` are falsy. -/
def pyTruthy : Option PyStr → Bool
  | none => false
  | some s => s ≠ []

/-- Python `x or y` on optional strings. -/
def pyOrStr (a b : Option PyStr) : Option PyStr := if pyTruthy a then a else b

/-- An `HTTPException(status_code=..., detail=...)`. -/
structure Http where
  status : Nat
  detail : PyStr
deriving DecidableEq

-- -----------------------------
-- Recovery code helpers (main.py lines 79-123)
-- -----------------------------

/-- `_require_code_salt`: raises `RuntimeError` when `ALBUM_CODE_SALT` is the
empty string (Python falsiness of the env value). -/
def _require_code_salt (salt : PyStr) : Except PyStr Unit :=
  if salt = [] then
    .error (pyS "Missing ALBUM_CODE_SALT env (set as Fly secret on API app)")
  else .ok ()

/-- The confusable-free alphabet of `_generate_recovery_code`. -/
def alphabet : PyStr := pyS "ABCDEFGHJKLMNPQRSTUVWXYZ23456789"

/-- `_generate_recovery_code(length)`: `raw` is the string of `length` random
`secrets.choice(alphabet)` picks, passed in explicitly; the function groups it
as `raw[0:4]-raw[4:8]-raw[8:12]` (resp. two groups for length ≥ 8). -/
def _generate_recovery_code (raw : PyStr) (length : Nat) : PyStr :=
  if 12 ≤ length then
    raw.take 4 ++ ['-'] ++ (raw.drop 4).take 4 ++ ['-'] ++ (raw.drop 8).take 4
  else if 8 ≤ length then raw.take 4 ++ ['-'] ++ (raw.drop 4).take 4
  else raw

/-- `_normalize_code`: `(code or "").strip().upper().replace(" ", "").replace("_", "-")`. -/
def _normalize_code (code : PyStr) : PyStr :=
  (((pyStrip code).map Char.toUpper).filter (fun c => c ≠ ' ')).map
    (fun c => if c = '_' then '-' else c)

/-- `_hash_code`: requires the salt, then hashes
`ALBUM_CODE_SALT + ":" + _normalize_code(code)` with SHA-256 (`H`). -/
def _hash_code (H : PyStr → PyStr) (salt : PyStr) (code : PyStr) : Except PyStr PyStr :=
  match _require_code_salt salt with
  | .error e => .error e
  | .ok _ => .ok (H (salt ++ pyS ":" ++ _normalize_code code))

/-- `_hint_from_code`: last 4 characters of the normalized code with dashes
removed (the whole remainder when shorter than 4). -/
def _hint_from_code (code : PyStr) : PyStr :=
  let c := _normalize_code code
  let clean := c.filter (fun ch => ch ≠ '-')
  if 4 ≤ clean.length then clean.drop (clean.length - 4) else clean

/-- `_get_album_code_or_403`: `code = x_album_code or code_qs`; 403 when falsy. -/
def _get_album_code_or_403 (x_album_code code_qs : Option PyStr) : Except Http PyStr :=
  match pyOrStr x_album_code code_qs with
  | some code =>
      if code = [] then .error ⟨403, pyS "Missing album code"⟩ else .ok code
  | none => .error ⟨403, pyS "Missing album code"⟩

-- -----------------------------
-- Metadata-store rows
-- -----------------------------

/-- One row of the `albums` table. -/
structure AlbumRow where
  id : String
  fingerprint : String
  status : String
  progress : Nat
  photo_count : Nat
  upload_key : String
  error_message : Option String
  access_code_hash : Option PyStr
  access_code_hint : Option PyStr
  access_code_created_at : Option String
  created_at : Nat
deriving DecidableEq

/-- One row of the `jobs` table. -/
structure JobRow where
  id : String
  album_id : String
  status : String
  zip_path : String
  error : Option String
  result : Option String
  created_at : Nat
deriving DecidableEq

/-- One row of the `photos` table. -/
structure PhotoRow where
  id : String
  album_id : String
  storage_path : Option String
  created_at : Nat
deriving DecidableEq

/-- One row of the `photo_faces` table (photo-cluster links). -/
structure LinkRow where
  photo_id : Option String
  cluster_id : String
deriving DecidableEq

/-- One row of the `face_embeddings` table (face observations). -/
structure FaceRow where
  id : Option String
  album_id : String
deriving DecidableEq

/-- One row of the `face_clusters` table. -/
structure ClusterRow where
  id : String
  album_id : String
  thumbnail_url : Option String
  created_at : Nat
deriving DecidableEq

/-- The relational metadata store. -/
structure DB where
  albums : List AlbumRow
  jobs : List JobRow
  photos : List PhotoRow
  photo_faces : List LinkRow
  face_embeddings : List FaceRow
  face_clusters : List ClusterRow
deriving DecidableEq

/-- Archive / blob bytes (one `Nat` per byte). -/
abbrev Bytes := List Nat

/-- The blob store: a list of `(path, bytes)` objects. -/
abbrev Storage := List (String × Bytes)

/-- The whole server-visible state. -/
structure ServerState where
  db : DB
  storage : Storage
deriving DecidableEq

/-- `order("created_at", desc=True).limit(1)`: the row with the greatest key
(first such row on ties, which SQL leaves unspecified). -/
def latestBy (rows : List α) (key : α → Nat) : Option α :=
  rows.foldl
    (fun acc r =>
      match acc with
      | none => some r
      | some a => if key a < key r then some r else acc)
    none

-- -----------------------------
-- _require_album_access (main.py lines 126-167)
-- -----------------------------

/-- The f-string detail of a mismatch with a non-empty hint:
`f"Invalid album code (hint: ****{hint})"`. -/
def mismatchDetail (hint : PyStr) : PyStr :=
  pyS "Invalid album code (hint: ****" ++ hint ++ pyS ")"

/-- `_require_album_access`: read the album row, allow when no stored hash,
else demand a code, hash it (500 when the salt is missing), compare, and
report a mismatch with the stored hint. -/
def _require_album_access (H : PyStr → PyStr) (salt : PyStr) (albums : List AlbumRow)
    (album_id : String) (x_album_code code_qs : Option PyStr) : Except Http Unit :=
  match albums.find? (fun r => r.id == album_id) with
  | none => .error ⟨404, pyS "Album not found"⟩
  | some row =>
    match pyStrip (row.access_code_hash.getD []) with
    | [] => .ok ()  -- no auth configured => allow (backward compat)
    | stored_hash =>
      match _get_album_code_or_403 x_album_code code_qs with
      | .error e => .error e
      | .ok provided =>
        match _hash_code H salt provided with
        | .error _ =>
            .error ⟨500, pyS "Server misconfigured (missing ALBUM_CODE_SALT)"⟩
        | .ok provided_hash =>
            if provided_hash = stored_hash then .ok ()
            else
              match row.access_code_hint with
              | some hint =>
                  if hint ≠ [] then .error ⟨403, mismatchDetail hint⟩
                  else .error ⟨403, pyS "Invalid album code"⟩
              | none => .error ⟨403, pyS "Invalid album code"⟩

-- -----------------------------
-- PROCESS (main.py lines 273-384)
-- -----------------------------

/-- Response of `/process`. -/
structure ProcessResp where
  albumId : String
  jobId : String
  recoveryCode : Option PyStr
deriving DecidableEq

/-- The values minted by the environment during one `/process` call: the 12
random alphabet picks, the album id the store assigns on insert, the
`uuid4()` for a new job, and the insertion timestamp. -/
structure ProcessFresh where
  rawCode : PyStr
  newAlbumId : String
  newJobId : String
  now : Nat

/-- Step 1 lookup: most recently created album with the given fingerprint. -/
def latestAlbumFor (db : DB) (fp : String) : Option AlbumRow :=
  latestBy (db.albums.filter (fun r => r.fingerprint == fp)) (fun r => r.created_at)

/-- Step 3 lookup: most recent job of the album with status pending/processing. -/
def latestActiveJobFor (db : DB) (aid : String) : Option JobRow :=
  latestBy
    (db.jobs.filter (fun j =>
      j.album_id == aid && (j.status == "pending" || j.status == "processing")))
    (fun j => j.created_at)

/-- The `try:` block of step 2 of `process_album` (main.py lines 309-319).
`main.py` never imports `datetime` or `timezone`, so the final line
`code_created_at = datetime.now(timezone.utc).isoformat()` raises `NameError`;
the block therefore always raises (even with the salt configured) and the
`except` handler leaves every code field `None`. -/
def mintTry (H : PyStr → PyStr) (salt : PyStr) (raw : PyStr) :
    Except PyStr (PyStr × PyStr × PyStr × String) := do
  let _ ← _require_code_salt salt
  let recovery_code := _generate_recovery_code raw 12
  let code_hash ← _hash_code H salt recovery_code
  let code_hint := _hint_from_code recovery_code
  let _ := (recovery_code, code_hash, code_hint)
  -- `datetime.now(timezone.utc).isoformat()`: unbound name, raises
  .error (pyS "NameError: name 'datetime' is not defined")

/-- The album row inserted by step 2 for a brand-new fingerprint; the code
fields are set only when `code_hash` is truthy (`if code_hash:`). -/
def newAlbumRow (fresh : ProcessFresh) (fp upload_key : String)
    (mint : Option (PyStr × PyStr × PyStr × String)) : AlbumRow :=
  { id := fresh.newAlbumId
    fingerprint := fp
    status := "queued"
    progress := 0
    photo_count := 0
    upload_key := upload_key
    error_message := none
    access_code_hash :=
      match mint with
      | some (_, h, _, _) => if h ≠ [] then some h else none
      | none => none
    access_code_hint :=
      match mint with
      | some (_, h, hint, _) => if h ≠ [] then some hint else none
      | none => none
    access_code_created_at :=
      match mint with
      | some (_, h, _, ts) => if h ≠ [] then some ts else none
      | none => none
    created_at := fresh.now }

/-- The job row inserted by step 4. -/
def newJobRow (fresh : ProcessFresh) (aid upload_key : String) : JobRow :=
  { id := fresh.newJobId
    album_id := aid
    status := "pending"
    zip_path := upload_key
    error := none
    result := none
    created_at := fresh.now }

/-- `if recovery_code and not reused` guard on the response field. -/
def respCode (recovery_code : Option PyStr) (reused : Bool) : Option PyStr :=
  if pyTruthy recovery_code && !reused then recovery_code else none

/-- `process_album` (`POST /process`): dedup by fingerprint, create the album
when no active one exists, reuse or create the job, and (only for a brand-new
album whose mint succeeded) return the plaintext recovery code. -/
def process_album (H : PyStr → PyStr) (salt : PyStr) (fresh : ProcessFresh)
    (fingerprint : String) (uploadKey : Option String) (db : DB) :
    Except Http (ProcessResp × DB) :=
  -- `if not payload.fingerprint or not payload.uploadKey`
  if fingerprint = "" ∨ uploadKey.getD "" = "" then .error ⟨400, pyS "Missing params"⟩
  else
    let fp := pyStripS fingerprint
    let upload_key := pyStripS (uploadKey.getD "")
    -- 1. reusable album?
    let reusable : Option String :=
      match latestAlbumFor db fp with
      | some row =>
          if row.status = "queued" ∨ row.status = "processing" then some row.id
          else none
      | none => none
    -- 2. create a new album when none is reusable
    let (album_id, reused, recovery_code, db1) :=
      match reusable with
      | some aid => (aid, true, (none : Option PyStr), db)
      | none =>
          match mintTry H salt fresh.rawCode with
          | .ok m =>
              (fresh.newAlbumId, false, some m.1,
               { db with albums := db.albums ++ [newAlbumRow fresh fp upload_key (some m)] })
          | .error _ =>
              (fresh.newAlbumId, false, none,
               { db with albums := db.albums ++ [newAlbumRow fresh fp upload_key none] })
    -- 3. active job already there?
    match latestActiveJobFor db1 album_id with
    | some j => .ok ({ albumId := album_id, jobId := j.id,
                       recoveryCode := respCode recovery_code reused }, db1)
    -- 4. create a new job
    | none =>
        .ok ({ albumId := album_id, jobId := fresh.newJobId,
               recoveryCode := respCode recovery_code reused },
             { db1 with jobs := db1.jobs ++ [newJobRow fresh album_id upload_key] })

-- -----------------------------
-- JOB STATUS (main.py lines 391-421)
-- -----------------------------

/-- Response of `GET /jobs/{album_id}`. -/
structure JobStatusResp where
  albumId : String
  status : String
  progress : Nat
  photoCount : Nat
  errorMessage : Option String
deriving DecidableEq

/-- `get_job`: read the album row; when none exists return the synthetic
queued / 0 / 0 / no-error response instead of a 404. -/
def get_job (db : DB) (album_id : String) : JobStatusResp :=
  match db.albums.find? (fun r => r.id == album_id) with
  | none =>
      { albumId := album_id, status := "queued", progress := 0,
        photoCount := 0, errorMessage := none }
  | some row =>
      { albumId := row.id, status := row.status, progress := row.progress,
        photoCount := row.photo_count, errorMessage := row.error_message }

-- -----------------------------
-- Upload ZIP (main.py lines 212-267)
-- -----------------------------

/-- The extension filter of `_count_images_in_zip`: lowercase, skip directory
entries, keep `.jpg` / `.jpeg` / `.png`. -/
def isSupportedImageName (name : String) : Bool :=
  let n := pyLower name
  !(pyEndsWith n "/") &&
    (pyEndsWith n ".jpg" || pyEndsWith n ".jpeg" || pyEndsWith n ".png")

/-- The counting loop of `_count_images_in_zip`: increments per supported image
and breaks as soon as the count exceeds `maxPhotos`. -/
def countLoop (maxPhotos : Nat) : List String → Nat → Nat
  | [], count => count
  | name :: rest, count =>
      if isSupportedImageName name then
        if maxPhotos < count + 1 then count + 1
        else countLoop maxPhotos rest (count + 1)
      else countLoop maxPhotos rest count

/-- `_count_images_in_zip`: 400 on a malformed archive, else the (capped)
count of supported image entries. -/
def _count_images_in_zip (parse : Bytes → Option (List String)) (maxPhotos : Nat)
    (zip_bytes : Bytes) : Except Http Nat :=
  match parse zip_bytes with
  | none => .error ⟨400, pyS "Invalid ZIP file"⟩
  | some names => .ok (countLoop maxPhotos names 0)

/-- Response of `POST /upload`. -/
structure UploadResp where
  uploadKey : String
  fingerprint : String
deriving DecidableEq

/-- `upload_zip` (`POST /upload`): validate filename, non-emptiness, size and
photo count, then store the archive at `zips/<uuid4().hex>.zip` and return
that path as both `uploadKey` and `fingerprint`.  The state is returned
unchanged on every rejection path. -/
def upload_zip (parse : Bytes → Option (List String)) (maxZipMB maxPhotos : Nat)
    (freshHex : String) (filename : String) (content : Bytes) (st : ServerState) :
    Except Http UploadResp × ServerState :=
  if !(pyEndsWith (pyLower filename) ".zip") then
    (.error ⟨400, pyS "Only .zip supported"⟩, st)
  else if content = [] then (.error ⟨400, pyS "Empty file"⟩, st)
  -- Guard 1: ZIP size
  else if maxZipMB * 1024 * 1024 < content.length then
    (.error ⟨413, pyS "ZIP too large. Max " ++ pyS (toString maxZipMB) ++ pyS "MB"⟩, st)
  else
    -- Guard 2: photo count inside the ZIP
    match _count_images_in_zip parse maxPhotos content with
    | .error e => (.error e, st)
    | .ok img_count =>
        if img_count = 0 then
          (.error ⟨400, pyS "ZIP contains no supported images (.jpg/.jpeg/.png)"⟩, st)
        else if maxPhotos < img_count then
          (.error ⟨413, pyS "Too many photos in ZIP. Max " ++ pyS (toString maxPhotos)⟩, st)
        else
          let object_path := "zips/" ++ freshHex ++ ".zip"
          (.ok { uploadKey := object_path, fingerprint := object_path },
           { st with storage := st.storage ++ [(object_path, content)] })

-- -----------------------------
-- Download cluster ZIP (main.py lines 507-573)
-- -----------------------------

/-- `os.path.splitext(p)[1]`: the extension from the last dot of the basename,
empty when the basename has no dot or only leading dots before it. -/
def pySplitextExt (p : String) : String :=
  let base := (p.data.reverse.takeWhile (· ≠ '/')).reverse
  let suf := base.reverse.takeWhile (· ≠ '.')
  if suf.length = base.length then ""  -- no dot in the basename
  else
    let pre := base.take (base.length - suf.length - 1)
    if pre.any (· ≠ '.') then String.mk ('.' :: suf.reverse) else ""

/-- One entry of the freshly built archive. -/
structure ZipEntry where
  name : String
  data : Bytes
deriving DecidableEq

/-- Public blob URL used by the download loop. -/
def blobUrl (base bucket sp : String) : String :=
  base ++ "/storage/v1/object/public/" ++ bucket ++ "/" ++ pyLstripSlash sp

/-- The body of the download loop for one photo row: skip falsy storage
paths, fetch the public URL, skip non-200 responses, and name the entry
`photo id + extension` (default `.jpg`). -/
def entryFor (base bucket : String) (fetch : String → Nat × Bytes)
    (p : PhotoRow) : Option ZipEntry :=
  match p.storage_path with
  | none => none
  | some sp =>
      if sp = "" then none
      else
        let r := fetch (blobUrl base bucket sp)
        if r.1 ≠ 200 then none
        else
          let ext := pySplitextExt sp
          let ext := if ext = "" then ".jpg" else ext
          some ⟨p.id ++ ext, r.2⟩

/-- The non-empty photo ids linked to a cluster:
`[x["photo_id"] for x in links.data if x.get("photo_id")]`. -/
def clusterPhotoIds (db : DB) (clusterId : String) : List String :=
  (db.photo_faces.filter (fun l => l.cluster_id == clusterId)).filterMap
    (fun l => match l.photo_id with
      | some p => if p = "" then none else some p
      | none => none)

/-- The photo rows resolved for a cluster (`.in_("id", photo_ids)`). -/
def clusterItems (db : DB) (clusterId : String) : List PhotoRow :=
  db.photos.filter (fun p => (clusterPhotoIds db clusterId).contains p.id)

/-- The serialized archive bytes as far as the code inspects them: Python's
`ZipFile` always emits the 22-byte end-of-central-directory record on close,
so `buf.read()` is nonempty even with zero entries; we model the byte string
as that record followed by the entry payloads. -/
def zipRaw (entries : List ZipEntry) : Bytes :=
  List.replicate 22 0 ++ entries.flatMap (fun e => e.data)

/-- `download_cluster` (`GET /albums/{album_id}/download`): access check,
resolve linked photos (404 when none), cap the count (413), and build the
archive, skipping photos whose blob fetch does not return 200.  The success
value is the list of archive entries. -/
def download_cluster (H : PyStr → PyStr) (salt : PyStr) (maxPhotos : Nat)
    (base bucket : String) (fetch : String → Nat × Bytes) (db : DB)
    (album_id clusterId : String) (x_album_code code_qs : Option PyStr) :
    Except Http (List ZipEntry) :=
  match _require_album_access H salt db.albums album_id x_album_code code_qs with
  | .error e => .error e
  | .ok _ =>
    if clusterPhotoIds db clusterId = [] then
      .error ⟨404, pyS "No photos for cluster"⟩
    else if clusterItems db clusterId = [] then
      .error ⟨404, pyS "No photos found"⟩
    else if maxPhotos < (clusterItems db clusterId).length then
      .error ⟨413, pyS "Too many photos to download"⟩
    else if base = "" then .error ⟨500, pyS "Missing SUPABASE_URL"⟩
    else
      let entries := (clusterItems db clusterId).filterMap (entryFor base bucket fetch)
      if zipRaw entries = [] then .error ⟨404, pyS "Could not build ZIP"⟩
      else .ok entries

-- -----------------------------
-- Delete album (main.py lines 579-653)
-- -----------------------------

/-- The `deleted` counts of the `/delete` response. -/
structure DeleteResp where
  albumId : String
  photos : Nat
  photoPaths : Nat
  faceThumbs : Nat
  zips : Nat
deriving DecidableEq

/-- The `try:` block of storage removals: each batch is attempted only when
non-empty; a raised removal (`remove _ _ = none`) is swallowed by the
`except: pass` and the remaining batches are skipped. -/
def tryRemoveAll (remove : Storage → List String → Option Storage) :
    Storage → List (List String) → Storage
  | s, [] => s
  | s, b :: rest =>
      if b = [] then tryRemoveAll remove s rest
      else
        match remove s b with
        | some s2 => tryRemoveAll remove s2 rest
        | none => s

/-- The storage paths of the album's photo rows (truthy ones). -/
def albumPhotoPaths (db : DB) (album_id : String) : List String :=
  (db.photos.filter (fun p => p.album_id == album_id)).filterMap
    (fun r => match r.storage_path with
      | some sp => if sp = "" then none else some sp
      | none => none)

/-- The ids of the album's photo rows (truthy ones). -/
def albumPhotoIds (db : DB) (album_id : String) : List String :=
  (db.photos.filter (fun p => p.album_id == album_id)).filterMap
    (fun r => if r.id = "" then none else some r.id)

/-- The face thumbnail paths `albums/{album_id}/faces/{id}.jpg`. -/
def albumFaceThumbPaths (db : DB) (album_id : String) : List String :=
  (db.face_embeddings.filter (fun f => f.album_id == album_id)).filterMap
    (fun r => match r.id with
      | some i => if i = "" then none else some ("albums/" ++ album_id ++ "/faces/" ++ i ++ ".jpg")
      | none => none)

/-- The original archive blob path, when the album row has a truthy
`upload_key`. -/
def albumZipPaths (db : DB) (album_id : String) : List String :=
  match db.albums.find? (fun r => r.id == album_id) with
  | some row => if row.upload_key ≠ "" then [row.upload_key] else []
  | none => []

/-- The metadata-store cleanup: links of the album's photos (one delete per
photo id, in order), then face observations, clusters, photos, jobs, and
finally the album row. -/
def dbCleanup (db : DB) (album_id : String) (photo_ids : List String) : DB :=
  let pf := photo_ids.foldl
    (fun acc pid => acc.filter (fun l => l.photo_id ≠ some pid)) db.photo_faces
  { albums := db.albums.filter (fun a => a.id ≠ album_id)
    jobs := db.jobs.filter (fun j => j.album_id ≠ album_id)
    photos := db.photos.filter (fun p => p.album_id ≠ album_id)
    photo_faces := pf
    face_embeddings := db.face_embeddings.filter (fun f => f.album_id ≠ album_id)
    face_clusters := db.face_clusters.filter (fun c => c.album_id ≠ album_id) }

/-- The order in which `delete_album` issues its metadata-store deletes. -/
def deleteTrace (photo_ids : List String) : List String :=
  photo_ids.map (fun _ => "photo_faces") ++
    ["face_embeddings", "face_clusters", "photos", "jobs", "albums"]

/-- `delete_album` (`DELETE /albums/{album_id}`): access check, gather paths,
best-effort storage removal (failures swallowed), then the metadata-store
cleanup in dependency order.  The result also carries the trace of
metadata-store deletes, in issue order. -/
def delete_album (H : PyStr → PyStr) (salt : PyStr)
    (remove : Storage → List String → Option Storage) (st : ServerState)
    (album_id : String) (x_album_code code_qs : Option PyStr) :
    Except Http (DeleteResp × ServerState × List String) :=
  match _require_album_access H salt st.db.albums album_id x_album_code code_qs with
  | .error e => .error e
  | .ok _ =>
    let photo_paths := albumPhotoPaths st.db album_id
    let photo_ids := albumPhotoIds st.db album_id
    let face_thumb_paths := albumFaceThumbPaths st.db album_id
    let zip_paths := albumZipPaths st.db album_id
    -- storage remove (failures ignored: `except: pass`)
    let storage2 := tryRemoveAll remove st.storage [photo_paths, face_thumb_paths, zip_paths]
    -- DB cleanup
    let db2 := dbCleanup st.db album_id photo_ids
    .ok ({ albumId := album_id
           photos := photo_ids.length
           photoPaths := photo_paths.length
           faceThumbs := face_thumb_paths.length
           zips := zip_paths.length },
         { db := db2, storage := storage2 },
         deleteTrace photo_ids)

-- -----------------------------
-- Helper lemmas
-- -----------------------------

/-- `countLoop` computes the number of supported images, capped at
`maxPhotos + 1` by the early break. -/
lemma countLoop_eq (maxPhotos : Nat) (names : List String) (c : Nat) (hc : c ≤ maxPhotos) :
    countLoop maxPhotos names c =
      min (c + (names.filter isSupportedImageName).length) (maxPhotos + 1) := by
  induction names generalizing c with
  | nil => simp [countLoop]; omega
  | cons n rest ih =>
    simp only [countLoop, List.filter_cons]
    by_cases hn : isSupportedImageName n
    · simp only [hn, if_true]
      by_cases hb : maxPhotos < c + 1
      · have hcm : c = maxPhotos := by omega
        subst hcm
        simp only [hb, if_true, List.length_cons]
        omega
      · rw [if_neg hb, ih (c + 1) (by omega)]
        simp only [List.length_cons]
        omega
    · simp only [hn, if_false, Bool.false_eq_true]
      exact ih c hc

/-- Successful uploads return the fresh `zips/<hex>.zip` path as both fields. -/
lemma upload_ok_shape {parse : Bytes → Option (List String)} {mb mp : Nat}
    {fh fn : String} {c : Bytes} {st : ServerState} {resp : UploadResp} {st' : ServerState}
    (h : upload_zip parse mb mp fh fn c st = (.ok resp, st')) :
    resp = { uploadKey := "zips/" ++ fh ++ ".zip", fingerprint := "zips/" ++ fh ++ ".zip" } := by
  unfold upload_zip at h
  split at h
  · simp at h
  · split at h
    · simp at h
    · split at h
      · simp at h
      · split at h
        · simp at h
        · split at h
          · simp at h
          · split at h
            · simp at h
            · simp only [Prod.mk.injEq] at h
              cases h.1
              rfl

/-- `"zips/" ++ h ++ ".zip"` determines `h`. -/
lemma zipPath_inj {a b : String} (h : "zips/" ++ a ++ ".zip" = "zips/" ++ b ++ ".zip") :
    a = b := by
  have hd := congrArg String.data h
  simp only [String.data_append] at hd
  have h1 := List.append_cancel_right hd
  have h2 := List.append_cancel_left h1
  exact String.ext h2

-- -----------------------------
-- Claim theorems
-- -----------------------------

/-- C5: `getStatus` never fails with NotFound: when no `albums` row has the
queried id, `get_job` returns the synthetic `queued` / progress 0 /
photoCount 0 / no-error response, and when a row exists it returns that row's
status, progress, photo count and error message. -/
theorem get_status_never_not_found (db : DB) (album_id : String) :
    ((∀ r ∈ db.albums, r.id ≠ album_id) →
      get_job db album_id =
        { albumId := album_id, status := "queued", progress := 0,
          photoCount := 0, errorMessage := none }) ∧
    (∀ row, db.albums.find? (fun r => r.id == album_id) = some row →
      get_job db album_id =
        { albumId := row.id, status := row.status, progress := row.progress,
          photoCount := row.photo_count, errorMessage := row.error_message }) := by
  constructor
  · intro h
    have hf : db.albums.find? (fun r => r.id == album_id) = none := by
      rw [List.find?_eq_none]
      intro r hr
      simpa using h r hr
    simp [get_job, hf]
  · intro row hrow
    simp [get_job, hrow]

/-- Witness for C5 at a concrete store: an id with no backing row yields the
synthetic response, and an existing row is returned as stored. -/
theorem get_status_never_not_found_witness :
    get_job { albums := [], jobs := [], photos := [], photo_faces := [],
              face_embeddings := [], face_clusters := [] } "a1" =
      { albumId := "a1", status := "queued", progress := 0,
        photoCount := 0, errorMessage := none } :=
  (get_status_never_not_found _ "a1").1 (by decide)

/-- C10: a successful upload returns `fingerprint = uploadKey`, both being the
freshly generated `zips/<uuid-hex>.zip` path; two successful uploads with
distinct fresh hex values return distinct fingerprints, and the fingerprint
does not depend on the archive's content. -/
theorem upload_fingerprint_is_fresh_path
    (parse parse₂ : Bytes → Option (List String)) (mb mp mb₂ mp₂ : Nat)
    (fh fn fh₂ fn₂ : String) (c c₂ : Bytes) (st st₂ : ServerState) :
    (∀ resp st', upload_zip parse mb mp fh fn c st = (.ok resp, st') →
      resp.fingerprint = resp.uploadKey ∧
      resp.fingerprint = "zips/" ++ fh ++ ".zip") ∧
    (∀ r₁ s₁ r₂ s₂,
      upload_zip parse mb mp fh fn c st = (.ok r₁, s₁) →
      upload_zip parse₂ mb₂ mp₂ fh₂ fn₂ c₂ st₂ = (.ok r₂, s₂) →
      fh ≠ fh₂ → r₁.fingerprint ≠ r₂.fingerprint) ∧
    (∀ r₁ s₁ r₂ s₂,
      upload_zip parse mb mp fh fn c st = (.ok r₁, s₁) →
      upload_zip parse₂ mb₂ mp₂ fh fn₂ c₂ st₂ = (.ok r₂, s₂) →
      r₁.fingerprint = r₂.fingerprint) := by
  refine ⟨?_, ?_, ?_⟩
  · intro resp st' h
    rw [upload_ok_shape h]
    exact ⟨rfl, rfl⟩
  · intro r₁ s₁ r₂ s₂ h₁ h₂ hne
    rw [upload_ok_shape h₁, upload_ok_shape h₂]
    intro hcontra
    exact hne (zipPath_inj hcontra)
  · intro r₁ s₁ r₂ s₂ h₁ h₂
    rw [upload_ok_shape h₁, upload_ok_shape h₂]

/-- Witness for C10: two concrete successful uploads, with distinct fresh hex
values and different contents, return distinct fingerprints. -/
theorem upload_fingerprint_is_fresh_path_witness :
    (UploadResp.mk "zips/aa.zip" "zips/aa.zip").fingerprint ≠
      (UploadResp.mk "zips/bb.zip" "zips/bb.zip").fingerprint :=
  (upload_fingerprint_is_fresh_path (fun _ => some ["p.jpg"]) (fun _ => some ["p.jpg"])
      1 5 1 5 "aa" "f.zip" "bb" "g.zip" [0] [0, 1]
      ⟨⟨[], [], [], [], [], []⟩, []⟩ ⟨⟨[], [], [], [], [], []⟩, []⟩).2.1
    ⟨"zips/aa.zip", "zips/aa.zip"⟩
    ⟨⟨[], [], [], [], [], []⟩, [("zips/aa.zip", [0])]⟩
    ⟨"zips/bb.zip", "zips/bb.zip"⟩
    ⟨⟨[], [], [], [], [], []⟩, [("zips/bb.zip", [0, 1])]⟩
    (by decide) (by decide) (by decide)

/-- C6: the archive-size and photo-count limits are enforced synchronously,
before the archive is stored and before any album row can exist: an oversized
ZIP, a ZIP with zero supported images, or one with more supported images than
the per-album maximum is rejected with the whole server state (blob storage
and all metadata tables, hence the `albums` table) unchanged. -/
theorem upload_limits_enforced_before_storage
    (parse : Bytes → Option (List String)) (maxZipMB maxPhotos : Nat)
    (freshHex filename : String) (content : Bytes) (st : ServerState)
    (hzip : pyEndsWith (pyLower filename) ".zip" = true) :
    (maxZipMB * 1024 * 1024 < content.length →
      upload_zip parse maxZipMB maxPhotos freshHex filename content st =
        (.error ⟨413, pyS "ZIP too large. Max " ++ pyS (toString maxZipMB) ++ pyS "MB"⟩, st)) ∧
    (∀ names, parse content = some names → content ≠ [] →
      content.length ≤ maxZipMB * 1024 * 1024 →
      (names.filter isSupportedImageName).length = 0 →
      upload_zip parse maxZipMB maxPhotos freshHex filename content st =
        (.error ⟨400, pyS "ZIP contains no supported images (.jpg/.jpeg/.png)"⟩, st)) ∧
    (∀ names, parse content = some names → content ≠ [] →
      content.length ≤ maxZipMB * 1024 * 1024 →
      maxPhotos < (names.filter isSupportedImageName).length →
      upload_zip parse maxZipMB maxPhotos freshHex filename content st =
        (.error ⟨413, pyS "Too many photos in ZIP. Max " ++ pyS (toString maxPhotos)⟩, st)) := by
  refine ⟨?_, ?_, ?_⟩
  · intro hbig
    have hne : content ≠ [] := by
      intro he
      rw [he] at hbig
      simp at hbig
    simp [upload_zip, hzip, hne, hbig]
  · intro names hparse hne hsize hzero
    have hcount : countLoop maxPhotos names 0 = 0 := by
      rw [countLoop_eq maxPhotos names 0 (Nat.zero_le _), hzero]
      omega
    simp [upload_zip, hzip, hne, Nat.not_lt.mpr hsize, _count_images_in_zip, hparse, hcount]
  · intro names hparse hne hsize hover
    have hcount : countLoop maxPhotos names 0 =
        min (names.filter isSupportedImageName).length (maxPhotos + 1) := by
      rw [countLoop_eq maxPhotos names 0 (Nat.zero_le _)]
      omega
    have h1 : countLoop maxPhotos names 0 ≠ 0 := by omega
    have h2 : maxPhotos < countLoop maxPhotos names 0 := by omega
    simp [upload_zip, hzip, hne, Nat.not_lt.mpr hsize, _count_images_in_zip, hparse, h1, h2]

/-- Witness for C6: a concrete ZIP whose image count exceeds the configured
maximum of 1 is rejected with HTTP 413 and the state untouched. -/
theorem upload_limits_enforced_before_storage_witness :
    upload_zip (fun _ => some ["a.jpg", "b.jpg"]) 1 1 "aa" "f.zip" [0]
        ⟨⟨[], [], [], [], [], []⟩, []⟩ =
      (.error ⟨413, pyS "Too many photos in ZIP. Max " ++ pyS (toString 1)⟩,
       ⟨⟨[], [], [], [], [], []⟩, []⟩) :=
  (upload_limits_enforced_before_storage (fun _ => some ["a.jpg", "b.jpg"]) 1 1 "aa" "f.zip"
      [0] ⟨⟨[], [], [], [], [], []⟩, []⟩ (by decide)).2.2
    ["a.jpg", "b.jpg"] rfl (by decide) (by decide) (by decide)

/-- C4: for an album with no stored access-code hash the access check grants
access unconditionally; with a stored hash a missing code fails with 403
"Missing album code" and a mismatched code fails with 403 whose detail is
built from the stored hint alone (so it contains the hint, every substring of
it is at most `31 + hint.length` characters, and a 64-character SHA-256
hexdigest can never occur in it); hints as minted are at most 4 characters. -/
theorem require_access_open_and_leak_free
    (H : PyStr → PyStr) (salt : PyStr) (albums : List AlbumRow) (album_id : String)
    (row : AlbumRow)
    (hrow : albums.find? (fun r => r.id == album_id) = some row) :
    (pyStrip (row.access_code_hash.getD []) = [] →
      ∀ x qs, _require_album_access H salt albums album_id x qs = .ok ()) ∧
    (pyStrip (row.access_code_hash.getD []) ≠ [] →
      ∀ x qs, pyTruthy (pyOrStr x qs) = false →
        _require_album_access H salt albums album_id x qs =
          .error ⟨403, pyS "Missing album code"⟩) ∧
    (∀ x qs provided hint, pyStrip (row.access_code_hash.getD []) ≠ [] →
      salt ≠ [] →
      pyOrStr x qs = some provided → provided ≠ [] →
      H (salt ++ pyS ":" ++ _normalize_code provided) ≠ pyStrip (row.access_code_hash.getD []) →
      row.access_code_hint = some hint → hint ≠ [] →
      _require_album_access H salt albums album_id x qs = .error ⟨403, mismatchDetail hint⟩ ∧
      hint <:+: mismatchDetail hint ∧
      (∀ s : PyStr, s <:+: mismatchDetail hint → s.length ≤ 31 + hint.length) ∧
      ((pyStrip (row.access_code_hash.getD [])).length = 64 → hint.length ≤ 4 →
        ¬ pyStrip (row.access_code_hash.getD []) <:+: mismatchDetail hint)) ∧
    (∀ c : PyStr, (_hint_from_code c).length ≤ 4) := by
  refine ⟨?_, ?_, ?_, ?_⟩
  · intro h0 x qs
    simp [_require_album_access, hrow, h0]
  · intro hne x qs hmiss
    obtain ⟨a, t, hat⟩ : ∃ a t, pyStrip (row.access_code_hash.getD []) = a :: t := by
      cases h : pyStrip (row.access_code_hash.getD []) with
      | nil => exact absurd h hne
      | cons a t => exact ⟨a, t, rfl⟩
    have hcode : _get_album_code_or_403 x qs = .error ⟨403, pyS "Missing album code"⟩ := by
      unfold _get_album_code_or_403
      cases hor : pyOrStr x qs with
      | none => rfl
      | some s =>
          have hs : s = [] := by
            rw [hor] at hmiss
            simpa [pyTruthy] using hmiss
          simp [hs]
    simp [_require_album_access, hrow, hat, hcode]
  · intro x qs provided hint hne hsalt hor hprov hmismatch hhint hhintne
    obtain ⟨a, t, hat⟩ : ∃ a t, pyStrip (row.access_code_hash.getD []) = a :: t := by
      cases h : pyStrip (row.access_code_hash.getD []) with
      | nil => exact absurd h hne
      | cons a t => exact ⟨a, t, rfl⟩
    rw [hat] at hmismatch
    have hcode : _get_album_code_or_403 x qs = .ok provided := by
      simp [_get_album_code_or_403, hor, hprov]
    have hhash : _hash_code H salt provided =
        .ok (H (salt ++ pyS ":" ++ _normalize_code provided)) := by
      simp [_hash_code, _require_code_salt, hsalt]
    refine ⟨?_, ?_, ?_, ?_⟩
    · simp [_require_album_access, hrow, hat, hcode, hhash, hhint, hhintne]
      simpa [List.append_assoc] using hmismatch
    · exact List.infix_append _ _ _
    · intro s hs
      have hlen := hs.length_le
      have h30 : (pyS "Invalid album code (hint: ****").length = 30 := by decide
      have h1 : (pyS ")").length = 1 := by decide
      have hd : (mismatchDetail hint).length = 31 + hint.length := by
        simp only [mismatchDetail, List.length_append, h30, h1]
        omega
      omega
    · intro h64 hle4 hcontra
      have hlen := hcontra.length_le
      have h30 : (pyS "Invalid album code (hint: ****").length = 30 := by decide
      have h1 : (pyS ")").length = 1 := by decide
      have hd : (mismatchDetail hint).length = 31 + hint.length := by
        simp only [mismatchDetail, List.length_append, h30, h1]
        omega
      omega
  · intro c
    unfold _hint_from_code
    by_cases h4 : 4 ≤ (List.filter (fun ch => ch ≠ '-') (_normalize_code c)).length
    · simp only [h4, if_true, List.length_drop]
      omega
    · simp only [h4, if_false]
      omega

/-- A concrete stored 64-character SHA-256-hexdigest-shaped hash. -/
def wHash4 : PyStr :=
  pyS "0000000000000000000000000000000000000000000000000000000000000000"

/-- A concrete album row with access control configured. -/
def wRow4 : AlbumRow :=
  { id := "a1", fingerprint := "f", status := "completed", progress := 100,
    photo_count := 3, upload_key := "zips/x.zip", error_message := none,
    access_code_hash := some wHash4, access_code_hint := some (pyS "JKLM"),
    access_code_created_at := none, created_at := 1 }

/-- Witness for C4: against a concrete album with a stored hash, a wrong code
fails with 403 and the detail built from the hint. -/
theorem require_access_open_and_leak_free_witness :
    _require_album_access (fun s => s) (pyS "S") [wRow4] "a1"
        (some (pyS "WRONG")) none = .error ⟨403, mismatchDetail (pyS "JKLM")⟩ :=
  ((require_access_open_and_leak_free (fun s => s) (pyS "S") [wRow4] "a1" wRow4
      (by decide)).2.2.1
    (some (pyS "WRONG")) none (pyS "WRONG") (pyS "JKLM")
    (by decide) (by decide) (by decide) (by decide) (by decide) rfl (by decide)).1

/-- Counterexample for C2 as stated: with the salt absent, a submit on a fresh
fingerprint does not fail — `process_album` catches the mint failure and
silently falls back to creating an album with no access control
(`access_code_hash = none`), returning 200 with no recovery code. -/
theorem submit_without_salt_creates_open_album :
    process_album (fun s => s) [] ⟨pyS "ABCDEFGHJKLM", "a1", "j1", 5⟩ "f" (some "k")
        ⟨[], [], [], [], [], []⟩ =
      .ok ({ albumId := "a1", jobId := "j1", recoveryCode := none },
           { albums := [newAlbumRow ⟨pyS "ABCDEFGHJKLM", "a1", "j1", 5⟩ "f" "k" none],
             jobs := [newJobRow ⟨pyS "ABCDEFGHJKLM", "a1", "j1", 5⟩ "a1" "k"],
             photos := [], photo_faces := [], face_embeddings := [], face_clusters := [] }) ∧
    (newAlbumRow ⟨pyS "ABCDEFGHJKLM", "a1", "j1", 5⟩ "f" "k" none).access_code_hash = none := by
  constructor
  · rfl
  · rfl

/-- C2 amended: with the salt absent, hashing — hence both minting and
verifying — fails deterministically with the missing-salt error, and the
access check never grants access to an album with a stored hash (403 when no
code is provided, 500 otherwise); the submission path, however, catches the
mint failure and still creates the album — without access control — instead
of failing. -/
theorem missing_salt_fails_closed_except_submit (H : PyStr → PyStr) :
    (∀ code, _hash_code H [] code =
      .error (pyS "Missing ALBUM_CODE_SALT env (set as Fly secret on API app)")) ∧
    (∀ albums album_id row x qs,
      albums.find? (fun r => r.id == album_id) = some row →
      pyStrip (row.access_code_hash.getD []) ≠ [] →
      _require_album_access H [] albums album_id x qs ≠ .ok ()) ∧
    (∀ albums album_id row x qs provided,
      albums.find? (fun r => r.id == album_id) = some row →
      pyStrip (row.access_code_hash.getD []) ≠ [] →
      pyOrStr x qs = some provided → provided ≠ [] →
      _require_album_access H [] albums album_id x qs =
        .error ⟨500, pyS "Server misconfigured (missing ALBUM_CODE_SALT)"⟩) ∧
    (∀ fresh fp uk db, fp ≠ "" → uk ≠ "" →
      latestAlbumFor db (pyStripS fp) = none →
      ∃ resp db', process_album H [] fresh fp (some uk) db = .ok (resp, db') ∧
        resp.recoveryCode = none ∧
        db'.albums = db.albums ++ [newAlbumRow fresh (pyStripS fp) (pyStripS uk) none] ∧
        (newAlbumRow fresh (pyStripS fp) (pyStripS uk) none).access_code_hash = none) := by
  refine ⟨?_, ?_, ?_, ?_⟩
  · intro code
    simp [_hash_code, _require_code_salt]
  · intro albums album_id row x qs hrow hne
    obtain ⟨a, t, hat⟩ : ∃ a t, pyStrip (row.access_code_hash.getD []) = a :: t := by
      cases h : pyStrip (row.access_code_hash.getD []) with
      | nil => exact absurd h hne
      | cons a t => exact ⟨a, t, rfl⟩
    cases hcode : _get_album_code_or_403 x qs with
    | error e => simp [_require_album_access, hrow, hat, hcode]
    | ok provided =>
        simp [_require_album_access, hrow, hat, hcode, _hash_code, _require_code_salt]
  · intro albums album_id row x qs provided hrow hne hor hprov
    obtain ⟨a, t, hat⟩ : ∃ a t, pyStrip (row.access_code_hash.getD []) = a :: t := by
      cases h : pyStrip (row.access_code_hash.getD []) with
      | nil => exact absurd h hne
      | cons a t => exact ⟨a, t, rfl⟩
    have hcode : _get_album_code_or_403 x qs = .ok provided := by
      simp [_get_album_code_or_403, hor, hprov]
    simp [_require_album_access, hrow, hat, hcode, _hash_code, _require_code_salt]
  · intro fresh fp uk db hfp huk hlatest
    have hmint : mintTry H [] fresh.rawCode =
        .error (pyS "Missing ALBUM_CODE_SALT env (set as Fly secret on API app)") := rfl
    have hnotempty : ¬ (fp = "" ∨ (some uk).getD "" = "") := by
      simp [hfp, huk]
    cases hjob : latestActiveJobFor
        { db with albums := db.albums ++
            [newAlbumRow fresh (pyStripS fp) (pyStripS uk) none] } fresh.newAlbumId with
    | some j =>
        refine ⟨⟨fresh.newAlbumId, j.id, none⟩,
          ⟨db.albums ++ [newAlbumRow fresh (pyStripS fp) (pyStripS uk) none],
           db.jobs, db.photos, db.photo_faces, db.face_embeddings, db.face_clusters⟩,
          ?_, rfl, rfl, rfl⟩
        simp [process_album, hnotempty, hlatest, hmint, hjob, respCode, pyTruthy, hfp, huk]
    | none =>
        refine ⟨⟨fresh.newAlbumId, fresh.newJobId, none⟩,
          ⟨db.albums ++ [newAlbumRow fresh (pyStripS fp) (pyStripS uk) none],
           db.jobs ++ [newJobRow fresh fresh.newAlbumId (pyStripS uk)],
           db.photos, db.photo_faces, db.face_embeddings, db.face_clusters⟩,
          ?_, rfl, rfl, rfl⟩
        simp [process_album, hnotempty, hlatest, hmint, hjob, respCode, pyTruthy, hfp, huk]

/-- Witness for the amended C2: with the salt absent, hashing a concrete code
fails with the missing-salt error, and the access check on a concrete album
with a stored hash answers 500 rather than granting access. -/
theorem missing_salt_fails_closed_except_submit_witness :
    _hash_code (fun s => s) [] (pyS "ABCD") =
      .error (pyS "Missing ALBUM_CODE_SALT env (set as Fly secret on API app)") ∧
    _require_album_access (fun s => s) [] [wRow4] "a1" (some (pyS "X")) none =
      .error ⟨500, pyS "Server misconfigured (missing ALBUM_CODE_SALT)"⟩ :=
  ⟨(missing_salt_fails_closed_except_submit (fun s => s)).1 (pyS "ABCD"),
   (missing_salt_fails_closed_except_submit (fun s => s)).2.2.1 [wRow4] "a1" wRow4
     (some (pyS "X")) none (pyS "X") (by decide) (by decide) rfl (by decide)⟩

-- Normalization helper lemmas for the recovery-code claims

/-- `dropWhile` is the identity when the predicate fails on every element. -/
lemma dropWhile_eq_self_of {p : Char → Bool} {l : PyStr} (h : ∀ c ∈ l, p c = false) :
    l.dropWhile p = l := by
  cases l with
  | nil => rfl
  | cons a t => simp [List.dropWhile_cons, h a (List.mem_cons_self a t)]

/-- `strip` is the identity on whitespace-free strings. -/
lemma pyStrip_eq_self {l : PyStr} (h : ∀ c ∈ l, c.isWhitespace = false) :
    pyStrip l = l := by
  unfold pyStrip
  rw [dropWhile_eq_self_of h,
      dropWhile_eq_self_of (fun c hc => h c (List.mem_reverse.mp hc)),
      List.reverse_reverse]

/-- `strip` removes a single leading and trailing space around a
whitespace-free non-empty string. -/
lemma pyStrip_padded {l : PyStr} (hne : l ≠ [])
    (h : ∀ c ∈ l, c.isWhitespace = false) :
    pyStrip ([' '] ++ l ++ [' ']) = l := by
  obtain ⟨a, t, rfl⟩ := List.exists_cons_of_ne_nil hne
  unfold pyStrip
  have h1 : List.dropWhile Char.isWhitespace ([' '] ++ (a :: t) ++ [' ']) =
      (a :: t) ++ [' '] := by
    simp [List.dropWhile_cons, h a (List.mem_cons_self a t)]
  rw [h1]
  have h2 : ((a :: t) ++ [' ']).reverse = ' ' :: (a :: t).reverse := by
    simp
  rw [h2]
  have h3 : List.dropWhile Char.isWhitespace (' ' :: (a :: t).reverse) =
      (a :: t).reverse := by
    rw [List.dropWhile_cons]
    simp only [if_pos (by decide : Char.isWhitespace ' ' = true)]
    exact dropWhile_eq_self_of (fun c hc => h c (List.mem_reverse.mp hc))
  rw [h3, List.reverse_reverse]

/-- `map` is the identity when `f` fixes every element. -/
lemma map_eq_self_of {f : Char → Char} {l : PyStr} (h : ∀ c ∈ l, f c = c) :
    l.map f = l := by
  induction l with
  | nil => rfl
  | cons a t ih =>
      rw [List.map_cons, h a (List.mem_cons_self a t),
        ih (fun c hc => h c (List.mem_cons_of_mem a hc))]

/-- Every character of a minted recovery code is an alphabet character or a
dash. -/
lemma mem_code_chars {raw : PyStr} (hraw : ∀ c ∈ raw, c ∈ alphabet) :
    ∀ c ∈ _generate_recovery_code raw 12, c ∈ alphabet ∨ c = '-' := by
  intro c hc
  unfold _generate_recovery_code at hc
  simp only [le_refl, if_true, List.append_assoc, List.mem_append,
    List.mem_singleton] at hc
  rcases hc with h | h | h | h | h
  · exact Or.inl (hraw c (List.take_subset 4 raw h))
  · exact Or.inr h
  · exact Or.inl (hraw c (List.drop_subset 4 raw (List.take_subset 4 _ h)))
  · exact Or.inr h
  · exact Or.inl (hraw c (List.drop_subset 8 raw (List.take_subset 4 _ h)))

/-- Alphabet-or-dash strings contain no whitespace. -/
lemma code_no_ws {l : PyStr} (h : ∀ c ∈ l, c ∈ alphabet ∨ c = '-') :
    ∀ c ∈ l, c.isWhitespace = false := by
  intro c hc
  rcases h c hc with h1 | h1
  · exact (by decide : ∀ c ∈ alphabet, c.isWhitespace = false) c h1
  · subst h1; decide

/-- The space-filter and underscore-map steps of `_normalize_code` fix
alphabet-or-dash strings. -/
lemma filter_map_fixed {l : PyStr} (h : ∀ c ∈ l, c ∈ alphabet ∨ c = '-') :
    (l.filter (fun c => c ≠ ' ')).map (fun c => if c = '_' then '-' else c) = l := by
  induction l with
  | nil => rfl
  | cons a t ih =>
      have ha := h a (List.mem_cons_self a t)
      have hsp : a ≠ ' ' := by
        rcases ha with h1 | h1
        · exact (by decide : ∀ c ∈ alphabet, c ≠ ' ') a h1
        · subst h1; decide
      have hus : a ≠ '_' := by
        rcases ha with h1 | h1
        · exact (by decide : ∀ c ∈ alphabet, c ≠ '_') a h1
        · subst h1; decide
      have ih' := ih (fun c hc => h c (List.mem_cons_of_mem a hc))
      have hpa : decide (a ≠ ' ') = true := by simpa using hsp
      rw [List.filter_cons, if_pos hpa, List.map_cons, if_neg hus, ih']

/-- The upper-case step of `_normalize_code` fixes alphabet-or-dash strings. -/
lemma upper_fixed {l : PyStr} (h : ∀ c ∈ l, c ∈ alphabet ∨ c = '-') :
    l.map Char.toUpper = l := by
  apply map_eq_self_of
  intro c hc
  rcases h c hc with h1 | h1
  · exact (by decide : ∀ c ∈ alphabet, Char.toUpper c = c) c h1
  · subst h1; decide

/-- `_normalize_code` fixes every minted code. -/
lemma normalize_code_fixed {l : PyStr} (h : ∀ c ∈ l, c ∈ alphabet ∨ c = '-') :
    _normalize_code l = l := by
  unfold _normalize_code
  rw [pyStrip_eq_self (code_no_ws h), upper_fixed h]
  exact filter_map_fixed h

/-- `_normalize_code` maps the lower-cased code back to the minted code. -/
lemma normalize_lower {l : PyStr} (h : ∀ c ∈ l, c ∈ alphabet ∨ c = '-') :
    _normalize_code (l.map Char.toLower) = l := by
  unfold _normalize_code
  have hws : ∀ c ∈ l.map Char.toLower, c.isWhitespace = false := by
    intro c hc
    rw [List.mem_map] at hc
    obtain ⟨x, hx, rfl⟩ := hc
    rcases h x hx with h1 | h1
    · exact (by decide : ∀ c ∈ alphabet, (Char.toLower c).isWhitespace = false) x h1
    · subst h1; decide
  rw [pyStrip_eq_self hws, List.map_map]
  have hup : l.map (Char.toUpper ∘ Char.toLower) = l := by
    apply map_eq_self_of
    intro c hc
    rcases h c hc with h1 | h1
    · exact (by decide : ∀ c ∈ alphabet, Char.toUpper (Char.toLower c) = c) c h1
    · subst h1; decide
  rw [hup]
  exact filter_map_fixed h

/-- `_normalize_code` removes the added surrounding spaces of a padded code. -/
lemma normalize_padded {l : PyStr} (hne : l ≠ [])
    (h : ∀ c ∈ l, c ∈ alphabet ∨ c = '-') :
    _normalize_code ([' '] ++ l ++ [' ']) = l := by
  unfold _normalize_code
  rw [pyStrip_padded hne (code_no_ws h), upper_fixed h]
  exact filter_map_fixed h

/-- `_normalize_code` maps the underscores-for-dashes variant back to the
minted code. -/
lemma normalize_underscored {l : PyStr} (h : ∀ c ∈ l, c ∈ alphabet ∨ c = '-') :
    _normalize_code (l.map (fun c => if c = '-' then '_' else c)) = l := by
  unfold _normalize_code
  have hws : ∀ c ∈ l.map (fun c => if c = '-' then '_' else c),
      c.isWhitespace = false := by
    intro c hc
    rw [List.mem_map] at hc
    obtain ⟨x, hx, rfl⟩ := hc
    rcases h x hx with h1 | h1
    · exact (by decide :
        ∀ c ∈ alphabet, (if c = '-' then '_' else c).isWhitespace = false) x h1
    · subst h1; decide
  rw [pyStrip_eq_self hws]
  induction l with
  | nil => rfl
  | cons a t ih =>
      have ha := h a (List.mem_cons_self a t)
      have h1 : Char.toUpper (if a = '-' then '_' else a) =
          (if a = '-' then '_' else a) := by
        rcases ha with h1 | h1
        · exact (by decide : ∀ c ∈ alphabet,
            Char.toUpper (if c = '-' then '_' else c) = (if c = '-' then '_' else c)) a h1
        · subst h1; decide
      have h2 : (if a = '-' then '_' else a) ≠ ' ' := by
        rcases ha with h1 | h1
        · exact (by decide : ∀ c ∈ alphabet, (if c = '-' then '_' else c) ≠ ' ') a h1
        · subst h1; decide
      have h3 : (if (if a = '-' then '_' else a) = '_' then '-'
          else (if a = '-' then '_' else a)) = a := by
        rcases ha with h1 | h1
        · exact (by decide : ∀ c ∈ alphabet,
            (if (if c = '-' then '_' else c) = '_' then '-'
              else (if c = '-' then '_' else c)) = c) a h1
        · subst h1; decide
      have ih' := ih (fun c hc => h c (List.mem_cons_of_mem a hc))
        (fun c hc => hws c (List.mem_cons_of_mem _ hc))
      have hpa : decide ((if a = '-' then '_' else a) ≠ ' ') = true := by simpa using h2
      rw [List.map_cons, List.map_cons, h1, List.filter_cons, if_pos hpa,
        List.map_cons, h3, ih']

/-- "Differs only in letter case or in the presence of separator/whitespace
characters": equal after upper-casing and removing dashes, underscores and
whitespace. -/
def caseSeparatorVariant (a b : PyStr) : Prop :=
  (a.filter (fun c => !(c = '-' || c = '_' || c.isWhitespace))).map Char.toUpper =
  (b.filter (fun c => !(c = '-' || c = '_' || c.isWhitespace))).map Char.toUpper

/-- Counterexample for C3 as stated: `"ABCDEFGHJKLM"` (the minted code
`"ABCD-EFGH-JKLM"` entered without its dashes) is a variant differing only in
the presence of separator characters, yet it hashes differently —
`_normalize_code` does not strip dashes — so verification rejects it. -/
theorem verify_rejects_dashless_variant :
    caseSeparatorVariant (pyS "ABCDEFGHJKLM")
      (_generate_recovery_code (pyS "ABCDEFGHJKLM") 12) ∧
    (∀ c ∈ pyS "ABCDEFGHJKLM", c ∈ alphabet) ∧
    _hash_code (fun s => s) (pyS "S") (pyS "ABCDEFGHJKLM") ≠
      _hash_code (fun s => s) (pyS "S")
        (_generate_recovery_code (pyS "ABCDEFGHJKLM") 12) :=
  ⟨by unfold caseSeparatorVariant; decide, by decide, by decide⟩

/-- C3 amended: `_normalize_code` trims surrounding whitespace, upper-cases,
removes spaces, and maps underscores to dashes (it does not strip dashes), so
with the salt configured a minted code still verifies when entered
lower-case, padded with surrounding spaces, or with underscores in place of
its dashes. -/
theorem verify_accepts_normalized_variants
    (H : PyStr → PyStr) (salt raw : PyStr) (hsalt : salt ≠ [])
    (hraw : ∀ c ∈ raw, c ∈ alphabet) :
    _hash_code H salt ((_generate_recovery_code raw 12).map Char.toLower) =
      _hash_code H salt (_generate_recovery_code raw 12) ∧
    _hash_code H salt ([' '] ++ _generate_recovery_code raw 12 ++ [' ']) =
      _hash_code H salt (_generate_recovery_code raw 12) ∧
    _hash_code H salt ((_generate_recovery_code raw 12).map
        (fun c => if c = '-' then '_' else c)) =
      _hash_code H salt (_generate_recovery_code raw 12) := by
  have hchars := mem_code_chars hraw
  have hcne : _generate_recovery_code raw 12 ≠ [] := by
    have hdash : '-' ∈ _generate_recovery_code raw 12 := by
      unfold _generate_recovery_code
      simp
    exact List.ne_nil_of_mem hdash
  have hrq : _require_code_salt salt = .ok () := by
    simp [_require_code_salt, hsalt]
  simp only [_hash_code, hrq]
  rw [normalize_lower hchars, normalize_padded hcne hchars,
    normalize_underscored hchars, normalize_code_fixed hchars]
  exact ⟨rfl, rfl, rfl⟩

/-- Witness for the amended C3: the concrete minted code `"ABCD-EFGH-JKLM"`
verifies in its lower-case, space-padded, and underscored variants. -/
theorem verify_accepts_normalized_variants_witness :
    _hash_code (fun s => s) (pyS "S")
        ((_generate_recovery_code (pyS "ABCDEFGHJKLM") 12).map Char.toLower) =
      _hash_code (fun s => s) (pyS "S")
        (_generate_recovery_code (pyS "ABCDEFGHJKLM") 12) :=
  (verify_accepts_normalized_variants (fun s => s) (pyS "S") (pyS "ABCDEFGHJKLM")
    (by decide) (by decide)).1

/-- C1: submission is idempotent by fingerprint while the most recently
created album for it is `queued`/`processing`: the call succeeds with that
album's id, creates no album row, returns no recovery code, and when that
album already has a pending/processing job it returns that job's id without
creating a new job. -/
theorem submit_idempotent_while_active
    (H : PyStr → PyStr) (salt : PyStr) (fresh : ProcessFresh)
    (fp uk : String) (db : DB) (row : AlbumRow)
    (hfp : fp ≠ "") (huk : uk ≠ "")
    (hlatest : latestAlbumFor db (pyStripS fp) = some row)
    (hactive : row.status = "queued" ∨ row.status = "processing") :
    ∃ jobId db',
      process_album H salt fresh fp (some uk) db =
        .ok ({ albumId := row.id, jobId := jobId, recoveryCode := none }, db') ∧
      db'.albums = db.albums ∧
      (∀ j, latestActiveJobFor db row.id = some j →
        jobId = j.id ∧ db'.jobs = db.jobs) := by
  have hnotempty : ¬ (fp = "" ∨ (some uk).getD "" = "") := by simp [hfp, huk]
  cases hjob : latestActiveJobFor db row.id with
  | some j =>
      refine ⟨j.id, db, ?_, rfl, ?_⟩
      · rcases hactive with h | h <;>
          simp [process_album, hnotempty, hlatest, h, hjob, respCode, pyTruthy, hfp, huk]
      · intro j' hj'
        have h3 := Option.some.inj hj'
        subst h3
        exact ⟨rfl, rfl⟩
  | none =>
      refine ⟨fresh.newJobId,
        ⟨db.albums, db.jobs ++ [newJobRow fresh row.id (pyStripS uk)], db.photos,
         db.photo_faces, db.face_embeddings, db.face_clusters⟩, ?_, rfl, ?_⟩
      · rcases hactive with h | h <;>
          simp [process_album, hnotempty, hlatest, h, hjob, respCode, pyTruthy, hfp, huk]
      · intro j' hj'
        exact Option.noConfusion hj'

/-- A concrete active album row for the C1 witness. -/
def wRow1 : AlbumRow :=
  { id := "a1", fingerprint := "f", status := "queued", progress := 0,
    photo_count := 0, upload_key := "k", error_message := none,
    access_code_hash := none, access_code_hint := none,
    access_code_created_at := none, created_at := 1 }

/-- A concrete pending job row for the C1 witness. -/
def wJob1 : JobRow :=
  { id := "j1", album_id := "a1", status := "pending", zip_path := "k",
    error := none, result := none, created_at := 1 }

/-- A concrete store for the C1 witness. -/
def wDb1 : DB :=
  { albums := [wRow1], jobs := [wJob1], photos := [], photo_faces := [],
    face_embeddings := [], face_clusters := [] }

/-- Witness for C1: a concrete resubmission against an album that is still
`queued` and has a pending job. -/
theorem submit_idempotent_while_active_witness :
    ∃ jobId db',
      process_album (fun s => s) (pyS "S") ⟨pyS "ABCDEFGHJKLM", "a2", "j2", 5⟩
          "f" (some "k") wDb1 =
        .ok ({ albumId := wRow1.id, jobId := jobId, recoveryCode := none }, db') ∧
      db'.albums = wDb1.albums ∧
      (∀ j, latestActiveJobFor wDb1 wRow1.id = some j →
        jobId = j.id ∧ db'.jobs = wDb1.jobs) :=
  submit_idempotent_while_active (fun s => s) (pyS "S")
    ⟨pyS "ABCDEFGHJKLM", "a2", "j2", 5⟩ "f" "k" wDb1 wRow1
    (by decide) (by decide) (by decide) (Or.inl rfl)

/-- C7: `download_cluster` answers 404 exactly for clusters with no linked
photos: when no `photo_faces` row for the cluster carries a non-empty photo
id it fails with 404 "No photos for cluster", and when at least one linked
photo's row exists (and its blob is retrievable) no 404 can be produced. -/
theorem download_not_found_iff_no_linked_photos
    (H : PyStr → PyStr) (salt : PyStr) (maxPhotos : Nat) (base bucket : String)
    (fetch : String → Nat × Bytes) (db : DB) (album_id clusterId : String)
    (x qs : Option PyStr)
    (hacc : _require_album_access H salt db.albums album_id x qs = .ok ()) :
    ((∀ l ∈ db.photo_faces, l.cluster_id = clusterId →
        l.photo_id = none ∨ l.photo_id = some "") →
      download_cluster H salt maxPhotos base bucket fetch db album_id clusterId x qs =
        .error ⟨404, pyS "No photos for cluster"⟩) ∧
    (∀ l p pr sp, l ∈ db.photo_faces → l.cluster_id = clusterId →
      l.photo_id = some p → p ≠ "" →
      pr ∈ db.photos → pr.id = p →
      pr.storage_path = some sp → sp ≠ "" →
      (fetch (blobUrl base bucket sp)).1 = 200 →
      ∀ e, download_cluster H salt maxPhotos base bucket fetch db album_id
        clusterId x qs = .error e → e.status ≠ 404) := by
  constructor
  · intro h
    have hpids : clusterPhotoIds db clusterId = [] := by
      apply List.filterMap_eq_nil_iff.mpr
      intro l hl
      have hm := List.mem_filter.mp hl
      have hcl : l.cluster_id = clusterId := by simpa using hm.2
      rcases h l hm.1 hcl with h1 | h1 <;> simp [h1]
    simp [download_cluster, hacc, hpids]
  · intro l p pr sp hl hcl hlp hpne hpr hpid hsp hspne hfetch e he
    have hp : p ∈ clusterPhotoIds db clusterId := by
      apply List.mem_filterMap.mpr
      refine ⟨l, List.mem_filter.mpr ⟨hl, by simp [hcl]⟩, by simp [hlp, hpne]⟩
    have hpids : clusterPhotoIds db clusterId ≠ [] := List.ne_nil_of_mem hp
    have hitem : pr ∈ clusterItems db clusterId := by
      apply List.mem_filter.mpr
      refine ⟨hpr, ?_⟩
      rw [hpid]
      exact List.elem_iff.mpr hp
    have hitems : clusterItems db clusterId ≠ [] := List.ne_nil_of_mem hitem
    simp only [download_cluster, hacc] at he
    rw [if_neg hpids, if_neg hitems] at he
    by_cases hmax : maxPhotos < (clusterItems db clusterId).length
    · rw [if_pos hmax] at he
      injection he with h1
      rw [← h1]
      decide
    · rw [if_neg hmax] at he
      by_cases hbase : base = ""
      · rw [if_pos hbase] at he
        injection he with h1
        rw [← h1]
        decide
      · rw [if_neg hbase] at he
        have hzip : zipRaw ((clusterItems db clusterId).filterMap
            (entryFor base bucket fetch)) ≠ [] := by simp [zipRaw]
        rw [if_neg hzip] at he
        cases he

/-- Witness for C7: a concrete cluster with no linked photos yields 404. -/
theorem download_not_found_iff_no_linked_photos_witness :
    download_cluster (fun s => s) (pyS "S") 500 "http://b" "uploads"
        (fun _ => (200, [1])) wDb1 "a1" "c1" none none =
      .error ⟨404, pyS "No photos for cluster"⟩ :=
  (download_not_found_iff_no_linked_photos (fun s => s) (pyS "S") 500 "http://b"
      "uploads" (fun _ => (200, [1])) wDb1 "a1" "c1" none none (by decide)).1
    (by decide)

/-- C8: the archive a successful download returns never holds more than the
configured per-album maximum of photos, and under the resolvable-cluster
conditions the download succeeds for every fetch oracle — a photo whose blob
fetch does not return 200 is skipped (dropped by the entry filter) rather
than aborting the archive. -/
theorem download_caps_and_skips_failures
    (H : PyStr → PyStr) (salt : PyStr) (maxPhotos : Nat) (base bucket : String)
    (fetch : String → Nat × Bytes) (db : DB) (album_id clusterId : String)
    (x qs : Option PyStr)
    (hacc : _require_album_access H salt db.albums album_id x qs = .ok ()) :
    (∀ entries, download_cluster H salt maxPhotos base bucket fetch db album_id
        clusterId x qs = .ok entries → entries.length ≤ maxPhotos) ∧
    (clusterPhotoIds db clusterId ≠ [] →
     clusterItems db clusterId ≠ [] →
     (clusterItems db clusterId).length ≤ maxPhotos →
     base ≠ "" →
     download_cluster H salt maxPhotos base bucket fetch db album_id clusterId x qs =
       .ok ((clusterItems db clusterId).filterMap (entryFor base bucket fetch))) := by
  constructor
  · intro entries he
    simp only [download_cluster, hacc] at he
    by_cases h1 : clusterPhotoIds db clusterId = []
    · rw [if_pos h1] at he
      cases he
    · rw [if_neg h1] at he
      by_cases h2 : clusterItems db clusterId = []
      · rw [if_pos h2] at he
        cases he
      · rw [if_neg h2] at he
        by_cases hmax : maxPhotos < (clusterItems db clusterId).length
        · rw [if_pos hmax] at he
          cases he
        · rw [if_neg hmax] at he
          by_cases hbase : base = ""
          · rw [if_pos hbase] at he
            cases he
          · rw [if_neg hbase] at he
            have hzip : zipRaw ((clusterItems db clusterId).filterMap
                (entryFor base bucket fetch)) ≠ [] := by simp [zipRaw]
            rw [if_neg hzip] at he
            injection he with h3
            rw [← h3]
            calc ((clusterItems db clusterId).filterMap
                    (entryFor base bucket fetch)).length
                ≤ (clusterItems db clusterId).length :=
                  List.length_filterMap_le _ _
              _ ≤ maxPhotos := Nat.not_lt.mp hmax
  · intro h1 h2 h3 h4
    have hzip : zipRaw ((clusterItems db clusterId).filterMap
        (entryFor base bucket fetch)) ≠ [] := by simp [zipRaw]
    simp only [download_cluster, hacc]
    rw [if_neg h1, if_neg h2, if_neg (Nat.not_lt.mpr h3), if_neg h4, if_neg hzip]

/-- A concrete store for the C8 witness: one cluster linked to two photos. -/
def wDb8 : DB :=
  { albums := [wRow1], jobs := [],
    photos := [⟨"p1", "a1", some "x.jpg", 1⟩, ⟨"p2", "a1", some "y.jpg", 2⟩],
    photo_faces := [⟨some "p1", "c1"⟩, ⟨some "p2", "c1"⟩],
    face_embeddings := [], face_clusters := [] }

/-- A concrete fetch oracle for the C8 witness that fails on the second blob. -/
def wFetch8 (url : String) : Nat × Bytes :=
  if url = blobUrl "http://b" "uploads" "y.jpg" then (500, []) else (200, [7])

/-- Witness for C8: with one of the two blob fetches failing, the download
still succeeds and returns only the fetched photo. -/
theorem download_caps_and_skips_failures_witness :
    download_cluster (fun s => s) (pyS "S") 500 "http://b" "uploads" wFetch8
        wDb8 "a1" "c1" none none =
      .ok ((clusterItems wDb8 "c1").filterMap (entryFor "http://b" "uploads" wFetch8)) :=
  (download_caps_and_skips_failures (fun s => s) (pyS "S") 500 "http://b" "uploads"
      wFetch8 wDb8 "a1" "c1" none none (by decide)).2
    (by decide) (by decide) (by decide) (by decide)

/-- Elements surviving the per-photo-id link deletion loop come from the
starting link list. -/
lemma mem_foldl_filter {pids : List String} {links : List LinkRow} {l : LinkRow}
    (hl : l ∈ pids.foldl
      (fun acc pid => acc.filter (fun x => x.photo_id ≠ some pid)) links) :
    l ∈ links := by
  induction pids generalizing links with
  | nil => exact hl
  | cons a t ih => exact (List.mem_filter.mp (ih hl)).1

/-- After the per-photo-id link deletion loop, no surviving link refers to any
of the deleted photo ids. -/
lemma foldl_filter_removes {pids : List String} {links : List LinkRow} :
    ∀ l ∈ pids.foldl
        (fun acc pid => acc.filter (fun x => x.photo_id ≠ some pid)) links,
      ∀ p ∈ pids, l.photo_id ≠ some p := by
  induction pids generalizing links with
  | nil =>
      intro l hl p hp
      exact absurd hp (List.not_mem_nil p)
  | cons a t ih =>
      intro l hl p hp
      rcases List.mem_cons.mp hp with hpa | hp'
      · subst hpa
        have h1 : l ∈ links.filter (fun x => x.photo_id ≠ some p) := mem_foldl_filter hl
        have h2 := (List.mem_filter.mp h1).2
        simpa using h2
      · exact ih l hl p hp'

/-- C9: `delete_album` succeeds for every storage-removal oracle (removal
failures are swallowed), issues its metadata-store deletes in dependency
order — the album's photo links, face observations, clusters, photos, jobs,
and finally the album row — and the cleaned store retains no row of the
album: the album row is removed together with its jobs, photos, face
observations, clusters, and the links of its photos. -/
theorem delete_album_cascades_best_effort (H : PyStr → PyStr) (salt : PyStr)
    (remove : Storage → List String → Option Storage) (st : ServerState)
    (album_id : String) (x qs : Option PyStr)
    (hacc : _require_album_access H salt st.db.albums album_id x qs = .ok ()) :
    ∃ resp storage',
      delete_album H salt remove st album_id x qs =
        .ok (resp,
          ⟨dbCleanup st.db album_id (albumPhotoIds st.db album_id), storage'⟩,
          deleteTrace (albumPhotoIds st.db album_id)) ∧
      deleteTrace (albumPhotoIds st.db album_id) =
        (albumPhotoIds st.db album_id).map (fun _ => "photo_faces") ++
          ["face_embeddings", "face_clusters", "photos", "jobs", "albums"] ∧
      (∀ a ∈ (dbCleanup st.db album_id (albumPhotoIds st.db album_id)).albums,
        a.id ≠ album_id) ∧
      (∀ j ∈ (dbCleanup st.db album_id (albumPhotoIds st.db album_id)).jobs,
        j.album_id ≠ album_id) ∧
      (∀ p ∈ (dbCleanup st.db album_id (albumPhotoIds st.db album_id)).photos,
        p.album_id ≠ album_id) ∧
      (∀ f ∈ (dbCleanup st.db album_id (albumPhotoIds st.db album_id)).face_embeddings,
        f.album_id ≠ album_id) ∧
      (∀ c ∈ (dbCleanup st.db album_id (albumPhotoIds st.db album_id)).face_clusters,
        c.album_id ≠ album_id) ∧
      (∀ l ∈ (dbCleanup st.db album_id (albumPhotoIds st.db album_id)).photo_faces,
        ∀ p, l.photo_id = some p → p ∉ albumPhotoIds st.db album_id) := by
  refine ⟨{ albumId := album_id,
            photos := (albumPhotoIds st.db album_id).length,
            photoPaths := (albumPhotoPaths st.db album_id).length,
            faceThumbs := (albumFaceThumbPaths st.db album_id).length,
            zips := (albumZipPaths st.db album_id).length },
      tryRemoveAll remove st.storage
      [albumPhotoPaths st.db album_id, albumFaceThumbPaths st.db album_id,
       albumZipPaths st.db album_id], ?_, rfl, ?_, ?_, ?_, ?_, ?_, ?_⟩
  · simp only [delete_album, hacc]
  · intro a ha
    have h := (List.mem_filter.mp ha).2
    simpa using h
  · intro j hj
    have h := (List.mem_filter.mp hj).2
    simpa using h
  · intro p hp
    have h := (List.mem_filter.mp hp).2
    simpa using h
  · intro f hf
    have h := (List.mem_filter.mp hf).2
    simpa using h
  · intro c hc
    have h := (List.mem_filter.mp hc).2
    simpa using h
  · intro l hl p hlp hp
    exact foldl_filter_removes l hl p hp hlp

/-- A concrete store for the C9 witness: an album with a photo, a link, a
face observation, a cluster and a job. -/
def wDb9 : DB :=
  { albums := [wRow1], jobs := [wJob1],
    photos := [⟨"p1", "a1", some "x.jpg", 1⟩],
    photo_faces := [⟨some "p1", "c1"⟩],
    face_embeddings := [⟨some "f1", "a1"⟩],
    face_clusters := [⟨"c1", "a1", none, 1⟩] }

/-- Witness for C9: deleting the concrete album succeeds even though every
storage removal fails (`remove` always raises), and the cleanup runs. -/
theorem delete_album_cascades_best_effort_witness :
    ∃ resp storage',
      delete_album (fun s => s) (pyS "S") (fun _ _ => none) ⟨wDb9, [("x.jpg", [1])]⟩
          "a1" none none =
        .ok (resp,
          ⟨dbCleanup wDb9 "a1" (albumPhotoIds wDb9 "a1"), storage'⟩,
          deleteTrace (albumPhotoIds wDb9 "a1")) ∧
      deleteTrace (albumPhotoIds wDb9 "a1") =
        (albumPhotoIds wDb9 "a1").map (fun _ => "photo_faces") ++
          ["face_embeddings", "face_clusters", "photos", "jobs", "albums"] ∧
      (∀ a ∈ (dbCleanup wDb9 "a1" (albumPhotoIds wDb9 "a1")).albums, a.id ≠ "a1") ∧
      (∀ j ∈ (dbCleanup wDb9 "a1" (albumPhotoIds wDb9 "a1")).jobs, j.album_id ≠ "a1") ∧
      (∀ p ∈ (dbCleanup wDb9 "a1" (albumPhotoIds wDb9 "a1")).photos, p.album_id ≠ "a1") ∧
      (∀ f ∈ (dbCleanup wDb9 "a1" (albumPhotoIds wDb9 "a1")).face_embeddings,
        f.album_id ≠ "a1") ∧
      (∀ c ∈ (dbCleanup wDb9 "a1" (albumPhotoIds wDb9 "a1")).face_clusters,
        c.album_id ≠ "a1") ∧
      (∀ l ∈ (dbCleanup wDb9 "a1" (albumPhotoIds wDb9 "a1")).photo_faces,
        ∀ p, l.photo_id = some p → p ∉ albumPhotoIds wDb9 "a1") :=
  delete_album_cascades_best_effort (fun s => s) (pyS "S") (fun _ _ => none)
    ⟨wDb9, [("x.jpg", [1])]⟩ "a1" none none (by decide)

end FindMe
